import Mathlib

/-!
Shallow embedding of the persistence and analytics core of the
health-tracker app (src/db/database.js and src/utils/analytics.js).

JavaScript numbers are modelled as exact rationals (ℚ); dates and
timestamps are strings, compared with the string order.  The web and
mobile branches of each storage function perform the same computation on
the parsed JSON blob, so each operation is embedded once, as a pure
function from the relevant stored state to the new state (or to an error,
for the operations that throw).  The `Date.now()` / `new Date().toISOString()`
values that the code reads from the clock are passed in as explicit
`now` / `nowISO` arguments.
-/

namespace HealthTracker

/-- A JavaScript runtime value, as far as the validators inspect one:
a number, a string, a boolean, `null` or `undefined`. -/
inductive JSVal where
  | num (q : ℚ)
  | str (s : String)
  | boolean (b : Bool)
  | null
  | undef
deriving DecidableEq, Repr

/-- `typeof v === "number"`. -/
def JSVal.isNum : JSVal → Bool
  | .num _ => true
  | _ => false

/-- `typeof v === "string"`. -/
def JSVal.isStr : JSVal → Bool
  | .str _ => true
  | _ => false

/-- The numeric value of a number; 0 for non-numbers (only used after a
`typeof` guard has established the value is a number). -/
def JSVal.toNum : JSVal → ℚ
  | .num q => q
  | _ => 0

/-- JavaScript truthiness: 0, "", false, null and undefined are falsy
(ℚ has no NaN, so numeric truthiness is just nonzero-ness). -/
def JSVal.truthy : JSVal → Bool
  | .num q => decide (q ≠ 0)
  | .str s => decide (s ≠ "")
  | .boolean b => b
  | .null => false
  | .undef => false

/-- One record of the daily-entries map, as written by `saveDailyEntry`. -/
structure DailyEntry where
  id : Int
  date : String
  water_ml : ℚ
  calories : ℚ
  steps : ℚ
  created_at : String
deriving DecidableEq, Repr

/-- The parsed `healthtracker_daily_entries` JSON object: date key /
entry value pairs in property order (string keys keep insertion order). -/
abbrev EntriesMap := List (String × DailyEntry)

/-- JavaScript object property read `entries[date]` (as `Option`). -/
def getKey (m : EntriesMap) (k : String) : Option DailyEntry :=
  match m with
  | [] => none
  | p :: rest => if p.1 = k then some p.2 else getKey rest k

/-- JavaScript object property write `entries[date] = v`: an existing key
is updated in place (keeping its position), a new key is appended. -/
def setKey (m : EntriesMap) (k : String) (v : DailyEntry) : EntriesMap :=
  if m.any (fun p => p.1 == k) then
    m.map (fun p => if p.1 = k then (k, v) else p)
  else
    m ++ [(k, v)]

/-- `validateDailyEntry(water_ml, calories, steps)` (database.js 165-181):
returns the list of violation messages, empty when valid. -/
def validateDailyEntry (water_ml calories steps : JSVal) : List String :=
  (if ¬ water_ml.isNum ∨ water_ml.toNum < 0 ∨ water_ml.toNum > 10000 then
      ["Water intake must be between 0 and 10,000 ml"] else [])
  ++ (if ¬ calories.isNum ∨ calories.toNum < 0 ∨ calories.toNum > 10000 then
      ["Calories must be between 0 and 10,000"] else [])
  ++ (if ¬ steps.isNum ∨ steps.toNum < 0 ∨ steps.toNum > 100000 then
      ["Steps must be between 0 and 100,000"] else [])

/-- The two throw sites of `saveDailyEntry`: invalid data (validation
messages) and invalid date format. -/
inductive SaveEntryError where
  | invalidData (errors : List String)
  | invalidDate
deriving DecidableEq, Repr

/-- `saveDailyEntry(date, water_ml, calories, steps)` (database.js
326-375): validates, rejects a falsy/non-string date (the only falsy
string is ""), then upserts the full record under the date key.  `now`
is `Date.now()`, `nowISO` is `new Date().toISOString()`. -/
def saveDailyEntry (now : Int) (nowISO : String) (date : String)
    (water_ml calories steps : JSVal) (m : EntriesMap) :
    Except SaveEntryError EntriesMap :=
  let validationErrors := validateDailyEntry water_ml calories steps
  if validationErrors ≠ [] then
    .error (.invalidData validationErrors)
  else if date = "" then
    .error .invalidDate
  else
    .ok (setKey m date
      { id := now, date := date, water_ml := water_ml.toNum,
        calories := calories.toNum, steps := steps.toNum,
        created_at := nowISO })

/-- `getTodayEntry(date)` (database.js 306-323): `entries[date] || null`
(entry objects are always truthy, so this is the plain lookup). -/
def getTodayEntry (date : String) (m : EntriesMap) : Option DailyEntry :=
  getKey m date

/-- JavaScript string `<`: lexicographic comparison of the character
sequences (code units; all dates here are ASCII). -/
def jsStrLt : List Char → List Char → Bool
  | _, [] => false
  | [], _ :: _ => true
  | a :: as, b :: bs => if a = b then jsStrLt as bs else decide (a < b)

/-- JavaScript string `<=` (equivalently `>=` with the arguments
swapped): the negation of the reversed strict comparison. -/
def jsStrLe (s t : String) : Bool := ! jsStrLt t.data s.data

theorem jsStrLt_asymm :
    ∀ as bs : List Char, jsStrLt as bs = true → jsStrLt bs as = false := by
  intro as
  induction as with
  | nil => intro bs h; cases bs <;> simp [jsStrLt] at h ⊢
  | cons a as ih =>
    intro bs h
    cases bs with
    | nil => simp [jsStrLt] at h
    | cons b bs =>
      by_cases hab : a = b
      · subst hab
        simp only [jsStrLt, if_pos rfl] at h ⊢
        exact ih bs h
      · have hba : ¬ b = a := fun he => hab he.symm
        simp only [jsStrLt, if_neg hab, decide_eq_true_eq] at h
        simp only [jsStrLt, if_neg hba, decide_eq_false_iff_not]
        exact not_lt_of_gt h

theorem jsStrLt_connex :
    ∀ as bs : List Char, jsStrLt as bs = false → jsStrLt bs as = false → as = bs := by
  intro as
  induction as with
  | nil =>
    intro bs h _
    cases bs with
    | nil => rfl
    | cons b bs => simp [jsStrLt] at h
  | cons a as ih =>
    intro bs h h2
    cases bs with
    | nil => simp [jsStrLt] at h2
    | cons b bs =>
      by_cases hab : a = b
      · subst hab
        simp only [jsStrLt, if_pos rfl] at h h2
        rw [ih bs h h2]
      · have hba : ¬ b = a := fun he => hab he.symm
        simp only [jsStrLt, if_neg hab, decide_eq_false_iff_not, not_lt] at h
        simp only [jsStrLt, if_neg hba, decide_eq_false_iff_not, not_lt] at h2
        exact absurd (le_antisymm h2 h) hab

theorem jsStrLt_trans :
    ∀ as bs cs : List Char, jsStrLt as bs = true → jsStrLt bs cs = true →
      jsStrLt as cs = true := by
  intro as
  induction as with
  | nil =>
    intro bs cs h h2
    cases bs with
    | nil => simp [jsStrLt] at h
    | cons b bs =>
      cases cs with
      | nil => simp [jsStrLt] at h2
      | cons c cs => simp [jsStrLt]
  | cons a as ih =>
    intro bs cs h h2
    cases bs with
    | nil => simp [jsStrLt] at h
    | cons b bs =>
      cases cs with
      | nil => simp [jsStrLt] at h2
      | cons c cs =>
        by_cases hab : a = b
        · subst hab
          simp only [jsStrLt, if_pos rfl] at h
          by_cases hbc : a = c
          · subst hbc
            simp only [jsStrLt, if_pos rfl] at h2 ⊢
            exact ih bs cs h h2
          · simp only [jsStrLt, if_neg hbc] at h2 ⊢
            exact h2
        · simp only [jsStrLt, if_neg hab, decide_eq_true_eq] at h
          by_cases hbc : b = c
          · subst hbc
            simp only [jsStrLt, if_neg hab, decide_eq_true_eq]
            exact h
          · simp only [jsStrLt, if_neg hbc, decide_eq_true_eq] at h2
            have hlt : a < c := lt_trans h h2
            have hac : ¬ a = c := ne_of_lt hlt
            simp only [jsStrLt, if_neg hac, decide_eq_true_eq]
            exact hlt

theorem jsStrLe_total (s t : String) :
    jsStrLe s t = true ∨ jsStrLe t s = true := by
  unfold jsStrLe
  by_cases h : jsStrLt t.data s.data = true
  · right
    rw [jsStrLt_asymm _ _ h]
    rfl
  · left
    rw [Bool.not_eq_true] at h
    rw [h]
    rfl

theorem jsStrLe_trans (s t u : String) :
    jsStrLe s t = true → jsStrLe t u = true → jsStrLe s u = true := by
  intro h h2
  simp only [jsStrLe, Bool.not_eq_true'] at h h2 ⊢
  cases hus : jsStrLt u.data s.data with
  | false => rfl
  | true =>
    exfalso
    by_cases htu : jsStrLt t.data u.data = true
    · have hts := jsStrLt_trans _ _ _ htu hus
      rw [h] at hts
      exact Bool.false_ne_true hts
    · rw [Bool.not_eq_true] at htu
      have hEq := jsStrLt_connex _ _ h2 htu
      rw [hEq, h] at hus
      exact Bool.false_ne_true hus

/-- The sort comparator of `getEntriesForDateRange`:
`a.date.localeCompare(b.date)`, modelled as the code-unit string order
(date strings are plain ASCII digits and hyphens). -/
def dateLe (x y : DailyEntry) : Prop := jsStrLe x.date y.date = true

instance : DecidableRel dateLe := fun x y => by
  unfold dateLe; infer_instance

instance : IsTotal DailyEntry dateLe := ⟨fun a b => jsStrLe_total a.date b.date⟩

instance : IsTrans DailyEntry dateLe :=
  ⟨fun _ _ _ h h2 => jsStrLe_trans _ _ _ h h2⟩

/-- The filter predicate `entry.date >= startDate && entry.date <= endDate`. -/
def entryInRange (startDate endDate : String) (e : DailyEntry) : Bool :=
  jsStrLe startDate e.date && jsStrLe e.date endDate

/-- `getEntriesForDateRange(startDate, endDate)` (database.js 378-401):
`Object.values(entries)` filtered to the inclusive range and sorted
ascending by date (the JS sort is modelled by insertion sort; date keys
are unique so any comparator-correct sort yields the same list). -/
def getEntriesForDateRange (startDate endDate : String) (m : EntriesMap) :
    List DailyEntry :=
  List.insertionSort dateLe ((m.map Prod.snd).filter (entryInRange startDate endDate))

/-! ## Analytics engine (src/utils/analytics.js) -/

/-- JavaScript `Math.round`: round half toward positive infinity,
`Math.round(x) = floor(x + 0.5)`. -/
def jsRound (q : ℚ) : Int := ⌊q + 1 / 2⌋

/-- The accumulator built by the `reduce` in `getWeeklyAverages`. -/
structure Totals where
  water : ℚ
  calories : ℚ
  steps : ℚ
  count : ℕ
deriving DecidableEq, Repr

/-- One step of that `reduce` (the `|| 0` fallbacks are the identity on
ℚ metric fields, which are always present in the model). -/
def addEntryTotals (acc : Totals) (entry : DailyEntry) : Totals :=
  { water := acc.water + entry.water_ml
    calories := acc.calories + entry.calories
    steps := acc.steps + entry.steps
    count := acc.count + 1 }

/-- The result object of `getWeeklyAverages`. -/
structure Averages where
  water : ℚ
  calories : ℚ
  steps : ℚ
  daysTracked : ℕ
deriving DecidableEq, Repr

/-- `AnalyticsService.getWeeklyAverages(startDate, endDate)`
(analytics.js 6-44): all-zero result when no entries are in range,
otherwise the `Math.round`ed mean of each metric over the entries found,
with `daysTracked` the count of entries found. -/
def getWeeklyAverages (startDate endDate : String) (m : EntriesMap) : Averages :=
  let entries := getEntriesForDateRange startDate endDate m
  if entries.length = 0 then
    { water := 0, calories := 0, steps := 0, daysTracked := 0 }
  else
    let totals := entries.foldl addEntryTotals ⟨0, 0, 0, 0⟩
    { water := (jsRound (totals.water / totals.count) : ℚ)
      calories := (jsRound (totals.calories / totals.count) : ℚ)
      steps := (jsRound (totals.steps / totals.count) : ℚ)
      daysTracked := totals.count }

/-- `AnalyticsService.calculateProgress(current, goal)` (analytics.js
47-50): `0` when `goal === 0`, else `Math.min(Math.round(current / goal * 100), 100)`. -/
def calculateProgress (current goal : ℚ) : ℚ :=
  if goal = 0 then 0
  else min ((jsRound (current / goal * 100) : ℚ)) 100

/-- A week window as consumed by `analyzeTrend`: the three metric values. -/
structure Window where
  water : ℚ
  calories : ℚ
  steps : ℚ
deriving DecidableEq, Repr

/-- The `avgChange` computed by `analyzeTrend` (analytics.js 58-66): the
average of the three percent-changes for water, calories and steps. -/
def avgChangeOf (currentWeek previousWeek : Window) : ℚ :=
  let waterChange := (currentWeek.water - previousWeek.water) / previousWeek.water * 100
  let calorieChange := (currentWeek.calories - previousWeek.calories) / previousWeek.calories * 100
  let stepChange := (currentWeek.steps - previousWeek.steps) / previousWeek.steps * 100
  (waterChange + calorieChange + stepChange) / 3

/-- `AnalyticsService.analyzeTrend(currentWeek, previousWeek)`
(analytics.js 53-71).  The JS guard
`!previousWeek.water && !previousWeek.calories && !previousWeek.steps`
is numeric falsiness, i.e. all three previous metrics are zero.  The
percent-change divisions are exact rational divisions here; the theorems
about the non-"new" branch assume the previous metrics are nonzero, where
this model agrees with the JS arithmetic. -/
def analyzeTrend (currentWeek previousWeek : Window) : String :=
  if previousWeek.water = 0 ∧ previousWeek.calories = 0 ∧ previousWeek.steps = 0 then
    "new"
  else
    if avgChangeOf currentWeek previousWeek > 10 then "improving"
    else if avgChangeOf currentWeek previousWeek < -10 then "declining"
    else "stable"

/-! ## User profile (database.js) -/

/-- A profile object as passed to `saveUserProfile` / stored under the
profile key.  Each field is `none` when the property is absent from the
object, `some v` when present with value `v` (possibly `null` or
`undefined`). -/
structure ProfileObj where
  id : Option JSVal
  name : Option JSVal
  birthdate : Option JSVal
  weight_kg : Option JSVal
  height_cm : Option JSVal
  daily_water_goal_ml : Option JSVal
  daily_calorie_goal : Option JSVal
  daily_step_goal : Option JSVal
  created_at : Option JSVal
  updated_at : Option JSVal
deriving DecidableEq, Repr

/-- Truthiness of a possibly-absent property (`profile.f` is `undefined`,
hence falsy, when the property is absent). -/
def truthyOf : Option JSVal → Bool
  | none => false
  | some v => v.truthy

/-- `typeof profile.f === "string"` for a possibly-absent property. -/
def isStrOf : Option JSVal → Bool
  | none => false
  | some v => v.isStr

/-- `typeof profile.f === "number"` for a possibly-absent property. -/
def isNumOf : Option JSVal → Bool
  | none => false
  | some v => v.isNum

/-- Numeric value of a possibly-absent property (0 when absent or not a
number; only used under a `typeof` guard). -/
def numOf : Option JSVal → ℚ
  | none => 0
  | some v => v.toNum

/-- The name check of `validateUserProfile` (database.js 186-188). -/
def nameErrs (p : ProfileObj) : List String :=
  if truthyOf p.name ∧ ¬ isStrOf p.name then ["Name must be a string"] else []

/-- The weight check of `validateUserProfile` (database.js 190-197). -/
def weightErrs (p : ProfileObj) : List String :=
  if truthyOf p.weight_kg ∧
      (¬ isNumOf p.weight_kg ∨ numOf p.weight_kg < 20 ∨ numOf p.weight_kg > 500) then
    ["Weight must be between 20 and 500 kg"] else []

/-- The height check of `validateUserProfile` (database.js 199-206). -/
def heightErrs (p : ProfileObj) : List String :=
  if truthyOf p.height_cm ∧
      (¬ isNumOf p.height_cm ∨ numOf p.height_cm < 50 ∨ numOf p.height_cm > 300) then
    ["Height must be between 50 and 300 cm"] else []

/-- The water-goal check of `validateUserProfile` (database.js 208-215). -/
def waterGoalErrs (p : ProfileObj) : List String :=
  if truthyOf p.daily_water_goal_ml ∧
      (¬ isNumOf p.daily_water_goal_ml ∨ numOf p.daily_water_goal_ml < 500 ∨
        numOf p.daily_water_goal_ml > 5000) then
    ["Water goal must be between 500 and 5,000 ml"] else []

/-- The calorie-goal check of `validateUserProfile` (database.js 217-224). -/
def calorieGoalErrs (p : ProfileObj) : List String :=
  if truthyOf p.daily_calorie_goal ∧
      (¬ isNumOf p.daily_calorie_goal ∨ numOf p.daily_calorie_goal < 1200 ∨
        numOf p.daily_calorie_goal > 4000) then
    ["Calorie goal must be between 1,200 and 4,000 calories"] else []

/-- The step-goal check of `validateUserProfile` (database.js 226-233). -/
def stepGoalErrs (p : ProfileObj) : List String :=
  if truthyOf p.daily_step_goal ∧
      (¬ isNumOf p.daily_step_goal ∨ numOf p.daily_step_goal < 1000 ∨
        numOf p.daily_step_goal > 50000) then
    ["Step goal must be between 1,000 and 50,000 steps"] else []

/-- `validateUserProfile(profile)` (database.js 183-236): each check
fires only when the property value is truthy (`profile.f && (...)`). -/
def validateUserProfile (p : ProfileObj) : List String :=
  nameErrs p ++ weightErrs p ++ heightErrs p ++ waterGoalErrs p
    ++ calorieGoalErrs p ++ stepGoalErrs p

/-- The throw site of `saveUserProfile`: invalid profile data. -/
inductive ProfileError where
  | invalidProfile (errors : List String)
deriving DecidableEq, Repr

/-- `saveUserProfile(profile)` (database.js 404-439): validates, then
stores `{ id: 1, ...profile, updated_at: new Date().toISOString() }`,
replacing the stored profile wholesale.  Note the spread comes after
`id: 1`, so an `id` property present on the argument overrides the `1`;
`updated_at` comes after the spread, so it is always refreshed. -/
def saveUserProfile (nowISO : String) (profile : ProfileObj)
    (_stored : Option ProfileObj) : Except ProfileError (Option ProfileObj) :=
  let validationErrors := validateUserProfile profile
  if validationErrors ≠ [] then
    .error (.invalidProfile validationErrors)
  else
    .ok (some
      { profile with
        id := some (profile.id.getD (.num 1)),
        updated_at := some (.str nowISO) })

/-! ## Medicines and dose history (database.js) -/

/-- A medicine record as stored in the medicines map. -/
structure Medicine where
  name : String
  dosage : String
  frequency : String
  times : List ℚ
  total_doses : Option ℚ
  doses_taken : ℚ
  created_at : String
deriving DecidableEq, Repr

/-- One record of the append-only dose-history log. -/
structure DoseHistoryEntry where
  id : Int
  medicine_id : Int
  dose_time : ℚ
  taken_at : String
deriving DecidableEq, Repr

/-- The medicine-related stored state: the medicines map (id-keyed) and
the dose-history array. -/
structure MedState where
  medicines : List (Int × Medicine)
  history : List DoseHistoryEntry
deriving DecidableEq, Repr

/-- `deleteMedicine(id)` (database.js 609-631): `delete medicines[id]`,
unconditional, no error when absent; the dose history is not touched. -/
def deleteMedicine (id : Int) (s : MedState) : MedState :=
  { s with medicines := s.medicines.filter (fun p => p.1 != id) }

/-- The `|| 0` fallback on `doses_taken` (identity on ℚ: a falsy number
is 0). -/
def jsOrZero (q : ℚ) : ℚ := if q = 0 then 0 else q

/-- `recordDoseTaken(medicineId, doseTime)` (database.js 634-696):
bumps `doses_taken` only when `medicines[medicineId]` exists, then
appends a dose-history record unconditionally. -/
def recordDoseTaken (now : Int) (nowISO : String) (medicineId : Int)
    (doseTime : ℚ) (s : MedState) : MedState :=
  let medicines :=
    if s.medicines.any (fun p => p.1 == medicineId) then
      s.medicines.map (fun p =>
        if p.1 = medicineId then
          (p.1, { p.2 with doses_taken := jsOrZero p.2.doses_taken + 1 })
        else p)
    else s.medicines
  { medicines := medicines
    history := s.history ++
      [{ id := now, medicine_id := medicineId, dose_time := doseTime,
         taken_at := nowISO }] }

/-! ## Reachable daily-entry states -/

/-- The daily-entries states reachable from the empty map written by
`initDatabase` (database.js 239-303 writes `{}` when the key is absent)
through `saveDailyEntry`, the only operation that writes entries. -/
inductive ReachableEntries : EntriesMap → Prop where
  | empty : ReachableEntries []
  | save (now : Int) (nowISO date : String) (water_ml calories steps : JSVal)
      (m m' : EntriesMap) :
      ReachableEntries m →
      saveDailyEntry now nowISO date water_ml calories steps m = .ok m' →
      ReachableEntries m'

/-! ## Helper lemmas about the entries map -/

theorem getKey_append_self (m : EntriesMap) (k : String) (v : DailyEntry)
    (h : m.any (fun p => p.1 == k) = false) :
    getKey (m ++ [(k, v)]) k = some v := by
  induction m with
  | nil => simp [getKey]
  | cons p rest ih =>
    simp only [List.any_cons, Bool.or_eq_false_iff, beq_eq_false_iff_ne, ne_eq] at h
    simp only [List.cons_append, getKey, if_neg h.1]
    exact ih (by simpa using h.2)

theorem getKey_map_update (m : EntriesMap) (k : String) (v : DailyEntry)
    (h : m.any (fun p => p.1 == k) = true) :
    getKey (m.map (fun p => if p.1 = k then (k, v) else p)) k = some v := by
  induction m with
  | nil => simp at h
  | cons p rest ih =>
    by_cases hk : p.1 = k
    · simp [getKey, hk]
    · simp only [List.any_cons, Bool.or_eq_true, beq_iff_eq, hk, false_or] at h
      simp only [List.map_cons, if_neg hk, getKey, hk, if_false]
      exact ih h

theorem getKey_setKey (m : EntriesMap) (k : String) (v : DailyEntry) :
    getKey (setKey m k v) k = some v := by
  unfold setKey
  by_cases h : m.any (fun p => p.1 == k) = true
  · rw [if_pos h]; exact getKey_map_update m k v h
  · rw [if_neg h]
    refine getKey_append_self m k v ?_
    cases hb : m.any (fun p => p.1 == k) with
    | false => rfl
    | true => exact absurd hb h

theorem mem_setKey (m : EntriesMap) (k : String) (v : DailyEntry) :
    ∀ p ∈ setKey m k v, p ∈ m ∨ p = (k, v) := by
  intro p hp
  unfold setKey at hp
  split at hp
  · rcases List.mem_map.1 hp with ⟨q, hq, hfq⟩
    by_cases hk : q.1 = k
    · right; rw [if_pos hk] at hfq; exact hfq.symm
    · left; rw [if_neg hk] at hfq; exact hfq ▸ hq
  · rcases List.mem_append.1 hp with h | h
    · left; exact h
    · right; simpa using h

/-! ## C1: round-trip of saveDailyEntry and getTodayEntry -/

/-- C1 (counterexample): the round-trip fails for the empty date string,
even with all three metrics in bounds: `saveDailyEntry` rejects the date
(`!date` is true for `""`), so `getTodayEntry` still finds nothing. -/
theorem c1_counterexample :
    saveDailyEntry 0 "t" "" (.num 0) (.num 0) (.num 0) [] = .error .invalidDate ∧
    getTodayEntry "" [] = none ∧
    (0 : ℚ) ≤ 0 ∧ (0 : ℚ) ≤ 10000 ∧ (0 : ℚ) ≤ 100000 := by
  refine ⟨rfl, rfl, le_refl 0, by norm_num, by norm_num⟩

/-- C1 (amended): for every nonempty date string and every
`(water_ml, calories, steps)` triple of numbers within bounds, saving the
entry succeeds and reading the same date back returns a record carrying
exactly the three written values. -/
theorem c1_roundtrip_amended (now : Int) (nowISO date : String)
    (hdate : date ≠ "") (w c s : ℚ)
    (hw0 : 0 ≤ w) (hw1 : w ≤ 10000)
    (hc0 : 0 ≤ c) (hc1 : c ≤ 10000)
    (hs0 : 0 ≤ s) (hs1 : s ≤ 100000) (m : EntriesMap) :
    ∃ m', saveDailyEntry now nowISO date (.num w) (.num c) (.num s) m = .ok m' ∧
      ∃ e, getTodayEntry date m' = some e ∧
        e.water_ml = w ∧ e.calories = c ∧ e.steps = s := by
  have h1 : ¬ (¬ (JSVal.num w).isNum = true ∨ (JSVal.num w).toNum < 0 ∨
      (JSVal.num w).toNum > 10000) := by
    simp [JSVal.isNum, JSVal.toNum, not_lt]
    exact ⟨hw0, hw1⟩
  have h2 : ¬ (¬ (JSVal.num c).isNum = true ∨ (JSVal.num c).toNum < 0 ∨
      (JSVal.num c).toNum > 10000) := by
    simp [JSVal.isNum, JSVal.toNum, not_lt]
    exact ⟨hc0, hc1⟩
  have h3 : ¬ (¬ (JSVal.num s).isNum = true ∨ (JSVal.num s).toNum < 0 ∨
      (JSVal.num s).toNum > 100000) := by
    simp [JSVal.isNum, JSVal.toNum, not_lt]
    exact ⟨hs0, hs1⟩
  have hval : validateDailyEntry (.num w) (.num c) (.num s) = [] := by
    unfold validateDailyEntry
    rw [if_neg h1, if_neg h2, if_neg h3]
    rfl
  refine ⟨setKey m date
      { id := now, date := date, water_ml := w, calories := c, steps := s,
        created_at := nowISO }, ?_, ?_⟩
  · simp [saveDailyEntry, hval, hdate, JSVal.toNum]
  · exact ⟨_, getKey_setKey m date _, rfl, rfl, rfl⟩

/-- C1 (witness for the amended theorem at a concrete input). -/
theorem c1_roundtrip_witness :
    ∃ m', saveDailyEntry 7 "2025-01-01T00:00:00.000Z" "2025-01-01"
        (.num 1000) (.num 500) (.num 2000) [] = .ok m' ∧
      ∃ e, getTodayEntry "2025-01-01" m' = some e ∧
        e.water_ml = 1000 ∧ e.calories = 500 ∧ e.steps = 2000 :=
  c1_roundtrip_amended 7 "2025-01-01T00:00:00.000Z" "2025-01-01"
    (by decide) 1000 500 2000 (by norm_num) (by norm_num) (by norm_num)
    (by norm_num) (by norm_num) (by norm_num) []

/-! ## C2: invalid daily-entry input is rejected and nothing is written -/

/-- The property C2 quantifies over: the water input is a number in
`0..10000`. -/
def isValidWaterInput (v : JSVal) : Prop :=
  v.isNum = true ∧ 0 ≤ v.toNum ∧ v.toNum ≤ 10000

/-- The property C2 quantifies over: the calorie input is a number in
`0..10000`. -/
def isValidCalorieInput (v : JSVal) : Prop :=
  v.isNum = true ∧ 0 ≤ v.toNum ∧ v.toNum ≤ 10000

/-- The property C2 quantifies over: the steps input is a number in
`0..100000`. -/
def isValidStepsInput (v : JSVal) : Prop :=
  v.isNum = true ∧ 0 ≤ v.toNum ∧ v.toNum ≤ 100000

instance (v : JSVal) : Decidable (isValidWaterInput v) := by
  unfold isValidWaterInput; infer_instance

instance (v : JSVal) : Decidable (isValidCalorieInput v) := by
  unfold isValidCalorieInput; infer_instance

instance (v : JSVal) : Decidable (isValidStepsInput v) := by
  unfold isValidStepsInput; infer_instance

/-- C2: whenever one of the three inputs is not a number within its
bound, `saveDailyEntry` fails with the validation error (carrying the
nonempty message list) for every date and every stored map; since it
fails before the write, no entry is written or overwritten. -/
theorem c2_invalid_rejected (now : Int) (nowISO date : String)
    (w c s : JSVal) (m : EntriesMap)
    (h : ¬ isValidWaterInput w ∨ ¬ isValidCalorieInput c ∨ ¬ isValidStepsInput s) :
    validateDailyEntry w c s ≠ [] ∧
    saveDailyEntry now nowISO date w c s m =
      .error (.invalidData (validateDailyEntry w c s)) := by
  have hne : validateDailyEntry w c s ≠ [] := by
    intro hnil
    rw [validateDailyEntry] at hnil
    simp only [List.append_eq_nil] at hnil
    rcases h with hw | hc | hs
    · simp only [isValidWaterInput, not_and_or, not_le] at hw
      rw [if_pos hw] at hnil
      simp at hnil
    · simp only [isValidCalorieInput, not_and_or, not_le] at hc
      rw [if_pos hc] at hnil
      simp at hnil
    · simp only [isValidStepsInput, not_and_or, not_le] at hs
      rw [if_pos hs] at hnil
      simp at hnil
  exact ⟨hne, by simp [saveDailyEntry, hne]⟩

/-- C2 (witness): a negative water value is rejected. -/
theorem c2_invalid_rejected_witness :
    validateDailyEntry (.num (-1)) (.num 500) (.num 2000) ≠ [] ∧
    saveDailyEntry 0 "t" "2025-01-01" (.num (-1)) (.num 500) (.num 2000) [] =
      .error (.invalidData (validateDailyEntry (.num (-1)) (.num 500) (.num 2000))) :=
  c2_invalid_rejected 0 "t" "2025-01-01" (.num (-1)) (.num 500) (.num 2000) []
    (Or.inl (by decide))

/-! ## C3: range query returns exactly the in-range entries, sorted -/

/-- C3: `getEntriesForDateRange` is sorted ascending by date, is a
permutation of the stored values filtered to the inclusive range, and
contains an entry exactly when it is stored and its date lies between
the two bounds in the string order. -/
theorem c3_range_query (startDate endDate : String) (m : EntriesMap) :
    (getEntriesForDateRange startDate endDate m).Pairwise dateLe ∧
    (getEntriesForDateRange startDate endDate m).Perm
      ((m.map Prod.snd).filter (entryInRange startDate endDate)) ∧
    ∀ e, e ∈ getEntriesForDateRange startDate endDate m ↔
      (e ∈ m.map Prod.snd ∧ jsStrLe startDate e.date = true ∧
        jsStrLe e.date endDate = true) := by
  refine ⟨List.sorted_insertionSort dateLe _, List.perm_insertionSort dateLe _, ?_⟩
  intro e
  rw [getEntriesForDateRange, List.mem_insertionSort, List.mem_filter, entryInRange]
  simp

/-- The two-entry map used to witness C3 at a concrete input. -/
def c3Map : EntriesMap :=
  [("2025-01-01", ⟨1, "2025-01-01", 100, 200, 300, "t"⟩),
   ("2025-01-03", ⟨2, "2025-01-03", 400, 500, 600, "t"⟩)]

/-- C3 (witness): at a concrete map, membership in the range query
follows from the characterization. -/
theorem c3_range_query_witness :
    (⟨1, "2025-01-01", 100, 200, 300, "t"⟩ : DailyEntry) ∈
      getEntriesForDateRange "2025-01-01" "2025-01-02" c3Map :=
  ((c3_range_query "2025-01-01" "2025-01-02" c3Map).2.2 _).mpr
    ⟨by simp [c3Map], by decide, by decide⟩

/-! ## C4: progress percentage clamping -/

/-- C4 (counterexample): `calculateProgress` rounds, so it does not
return `min(current/goal*100, 100)` exactly (at `(1, 3)` it returns 33,
not 100/3); and for a negative goal, `current > goal` does not force 100
(at `(-1, -2)` it returns 50). -/
theorem c4_counterexample :
    calculateProgress 1 3 = 33 ∧ (33 : ℚ) ≠ min ((1 : ℚ) / 3 * 100) 100 ∧
    calculateProgress (-1) (-2) = 50 ∧ (-2 : ℚ) < -1 ∧ (50 : ℚ) ≠ 100 := by
  have h1 : jsRound ((1 : ℚ) / 3 * 100) = 33 := by
    rw [jsRound, Int.floor_eq_iff]
    norm_num
  have h2 : jsRound ((-1 : ℚ) / (-2) * 100) = 50 := by
    rw [jsRound, Int.floor_eq_iff]
    norm_num
  refine ⟨?_, ?_, ?_, by norm_num, by norm_num⟩
  · rw [calculateProgress, if_neg (by norm_num : (3 : ℚ) ≠ 0), h1]
    push_cast
    rw [min_eq_left (by norm_num)]
  · rw [min_eq_left (by norm_num)]
    norm_num
  · rw [calculateProgress, if_neg (by norm_num : (-2 : ℚ) ≠ 0), h2]
    push_cast
    rw [min_eq_left (by norm_num)]

/-- C4 (amended): `calculateProgress` returns
`min(round(current/goal*100), 100)` with round-half-up rounding; it
returns exactly 0 when the goal is 0, exactly 100 whenever
`current > goal > 0`, and never a value above 100. -/
theorem c4_progress_amended (current goal : ℚ) :
    (goal = 0 → calculateProgress current goal = 0) ∧
    (0 < goal → goal < current → calculateProgress current goal = 100) ∧
    calculateProgress current goal ≤ 100 := by
  refine ⟨fun h => by simp [calculateProgress, h], ?_, ?_⟩
  · intro hg hgc
    have hne : goal ≠ 0 := ne_of_gt hg
    have h1 : (1 : ℚ) < current / goal := (one_lt_div hg).2 hgc
    have h2 : (100 : ℚ) < current / goal * 100 := by nlinarith
    have h3 : (100 : ℤ) ≤ jsRound (current / goal * 100) := by
      rw [jsRound]
      apply Int.le_floor.2
      push_cast
      linarith
    have h4 : (100 : ℚ) ≤ (jsRound (current / goal * 100) : ℚ) := by
      exact_mod_cast h3
    rw [calculateProgress, if_neg hne, min_eq_right h4]
  · rw [calculateProgress]
    split
    · norm_num
    · exact min_le_right _ _

/-- C4 (witness for the amended theorem at concrete inputs). -/
theorem c4_progress_witness :
    calculateProgress 5 0 = 0 ∧ calculateProgress 5 2 = 100 ∧
    calculateProgress 7 3 ≤ 100 :=
  ⟨(c4_progress_amended 5 0).1 rfl,
   (c4_progress_amended 5 2).2.1 (by norm_num) (by norm_num),
   (c4_progress_amended 7 3).2.2⟩

/-! ## C5: trend classification -/

/-- C5: `analyzeTrend` returns "new" whenever the previous window is
all-zero, regardless of the current window; otherwise (with every
previous metric nonzero, so the percent-change divisions are defined) it
classifies the average percent-change as "improving" above 10,
"declining" below -10, and "stable" in between. -/
theorem c5_trend_classification (currentWeek previousWeek : Window) :
    ((previousWeek.water = 0 ∧ previousWeek.calories = 0 ∧ previousWeek.steps = 0) →
      analyzeTrend currentWeek previousWeek = "new") ∧
    (previousWeek.water ≠ 0 → previousWeek.calories ≠ 0 → previousWeek.steps ≠ 0 →
      (avgChangeOf currentWeek previousWeek > 10 →
        analyzeTrend currentWeek previousWeek = "improving") ∧
      (avgChangeOf currentWeek previousWeek < -10 →
        analyzeTrend currentWeek previousWeek = "declining") ∧
      (-10 ≤ avgChangeOf currentWeek previousWeek →
        avgChangeOf currentWeek previousWeek ≤ 10 →
        analyzeTrend currentWeek previousWeek = "stable")) := by
  constructor
  · intro h
    rw [analyzeTrend, if_pos h]
  · intro hw _ _
    have hcond : ¬ (previousWeek.water = 0 ∧ previousWeek.calories = 0 ∧
        previousWeek.steps = 0) := fun hz => hw hz.1
    refine ⟨?_, ?_, ?_⟩
    · intro h
      rw [analyzeTrend, if_neg hcond, if_pos h]
    · intro h
      have hnot : ¬ avgChangeOf currentWeek previousWeek > 10 := by linarith
      rw [analyzeTrend, if_neg hcond, if_neg hnot, if_pos h]
    · intro h1 h2
      have hnot : ¬ avgChangeOf currentWeek previousWeek > 10 := not_lt.2 h2
      have hnot2 : ¬ avgChangeOf currentWeek previousWeek < -10 := not_lt.2 h1
      rw [analyzeTrend, if_neg hcond, if_neg hnot, if_neg hnot2]

/-- C5 (witness): the all-zero previous window yields "new" even with a
nonzero current window, and a doubled week classifies as "improving". -/
theorem c5_trend_witness :
    analyzeTrend ⟨200, 200, 200⟩ ⟨0, 0, 0⟩ = "new" ∧
    analyzeTrend ⟨200, 200, 200⟩ ⟨100, 100, 100⟩ = "improving" :=
  ⟨(c5_trend_classification ⟨200, 200, 200⟩ ⟨0, 0, 0⟩).1 ⟨rfl, rfl, rfl⟩,
   ((c5_trend_classification ⟨200, 200, 200⟩ ⟨100, 100, 100⟩).2
      (by norm_num) (by norm_num) (by norm_num)).1 (by norm_num [avgChangeOf])⟩

/-! ## C6: averages over a range -/

/-- The entries found in an inclusive date range: the stored values
whose date passes the range filter (the list `getWeeklyAverages`
averages over, before sorting). -/
def entriesFoundInRange (startDate endDate : String) (m : EntriesMap) :
    List DailyEntry :=
  (m.map Prod.snd).filter (entryInRange startDate endDate)

theorem foldl_addEntryTotals (l : List DailyEntry) (acc : Totals) :
    l.foldl addEntryTotals acc =
      ⟨acc.water + (l.map DailyEntry.water_ml).sum,
       acc.calories + (l.map DailyEntry.calories).sum,
       acc.steps + (l.map DailyEntry.steps).sum,
       acc.count + l.length⟩ := by
  induction l generalizing acc with
  | nil => cases acc; simp
  | cons e rest ih =>
    simp only [List.foldl_cons, ih, addEntryTotals, List.map_cons,
      List.sum_cons, List.length_cons, Totals.mk.injEq]
    refine ⟨by ring, by ring, by ring, by omega⟩

/-- The two-entry map used for the C6 counterexample and witness. -/
def c6Map : EntriesMap :=
  [("2025-01-01", ⟨1, "2025-01-01", 1, 0, 0, "t"⟩),
   ("2025-01-02", ⟨2, "2025-01-02", 2, 0, 0, "t"⟩)]

/-- C6 (counterexample): over two entries with water 1 and 2, the code
reports water 2 (`Math.round(3/2)`), not the arithmetic mean 3/2, so the
result is not the exact mean the claim states. -/
theorem c6_counterexample :
    (getWeeklyAverages "2025-01-01" "2025-01-02" c6Map).water = 2 ∧
    (getWeeklyAverages "2025-01-01" "2025-01-02" c6Map).daysTracked = 2 ∧
    ((1 : ℚ) + 2) / 2 ≠ 2 := by
  have hlist : getEntriesForDateRange "2025-01-01" "2025-01-02" c6Map =
      [⟨1, "2025-01-01", 1, 0, 0, "t"⟩, ⟨2, "2025-01-02", 2, 0, 0, "t"⟩] := rfl
  have h2 : jsRound ((3 : ℚ) / 2) = 2 := by
    rw [jsRound, Int.floor_eq_iff]
    norm_num
  refine ⟨?_, ?_, by norm_num⟩
  · simp only [getWeeklyAverages, hlist, List.length_cons, List.length_nil,
      List.foldl_cons, List.foldl_nil, addEntryTotals]
    norm_num [h2]
  · simp only [getWeeklyAverages, hlist, List.length_cons, List.length_nil,
      List.foldl_cons, List.foldl_nil, addEntryTotals]
    norm_num

/-- C6 (amended): `getWeeklyAverages` returns the `Math.round`ed
(half-up) arithmetic mean of each metric over exactly the entries found
in the range, with `daysTracked` the count of entries found (days
without an entry are excluded from the denominator), and the all-zero
result when no entries are found. -/
theorem c6_averages_amended (startDate endDate : String) (m : EntriesMap) :
    (getWeeklyAverages startDate endDate m).daysTracked =
      (entriesFoundInRange startDate endDate m).length ∧
    (entriesFoundInRange startDate endDate m = [] →
      getWeeklyAverages startDate endDate m = ⟨0, 0, 0, 0⟩) ∧
    (entriesFoundInRange startDate endDate m ≠ [] →
      (getWeeklyAverages startDate endDate m).water =
        (jsRound (((entriesFoundInRange startDate endDate m).map
            DailyEntry.water_ml).sum /
          ((entriesFoundInRange startDate endDate m).length : ℚ)) : ℚ) ∧
      (getWeeklyAverages startDate endDate m).calories =
        (jsRound (((entriesFoundInRange startDate endDate m).map
            DailyEntry.calories).sum /
          ((entriesFoundInRange startDate endDate m).length : ℚ)) : ℚ) ∧
      (getWeeklyAverages startDate endDate m).steps =
        (jsRound (((entriesFoundInRange startDate endDate m).map
            DailyEntry.steps).sum /
          ((entriesFoundInRange startDate endDate m).length : ℚ)) : ℚ)) := by
  have hperm : (getEntriesForDateRange startDate endDate m).Perm
      (entriesFoundInRange startDate endDate m) := by
    unfold getEntriesForDateRange entriesFoundInRange
    exact List.perm_insertionSort dateLe _
  have hlen := hperm.length_eq
  by_cases hE : (getEntriesForDateRange startDate endDate m).length = 0
  · have hlen0 : (entriesFoundInRange startDate endDate m).length = 0 := by
      rw [← hlen]; exact hE
    have hnil : entriesFoundInRange startDate endDate m = [] :=
      List.eq_nil_of_length_eq_zero hlen0
    refine ⟨?_, fun _ => ?_, fun hne => absurd hnil hne⟩
    · simp [getWeeklyAverages, hE, hlen0]
    · simp [getWeeklyAverages, hE]
  · have hne : entriesFoundInRange startDate endDate m ≠ [] := by
      intro hnil
      rw [hnil, List.length_nil] at hlen
      exact hE hlen
    have hwater := (hperm.map DailyEntry.water_ml).sum_eq
    have hcal := (hperm.map DailyEntry.calories).sum_eq
    have hsteps := (hperm.map DailyEntry.steps).sum_eq
    have hlenne : ¬ (entriesFoundInRange startDate endDate m).length = 0 :=
      fun h0 => hne (List.eq_nil_of_length_eq_zero h0)
    refine ⟨?_, fun hnil => absurd hnil hne, fun _ => ⟨?_, ?_, ?_⟩⟩ <;>
      · simp only [getWeeklyAverages, if_neg hE,
          foldl_addEntryTotals, zero_add, hwater, hcal, hsteps, hlen]
        rw [if_neg hlenne]

/-- C6 (witness for the amended theorem): at the concrete two-entry map
the nonempty branch applies, and at a reversed (hence empty) range the
all-zero branch applies. -/
theorem c6_averages_witness :
    (getWeeklyAverages "2025-01-01" "2025-01-02" c6Map).daysTracked =
      (entriesFoundInRange "2025-01-01" "2025-01-02" c6Map).length ∧
    (getWeeklyAverages "2025-01-01" "2025-01-02" c6Map).water =
      (jsRound (((entriesFoundInRange "2025-01-01" "2025-01-02" c6Map).map
          DailyEntry.water_ml).sum /
        ((entriesFoundInRange "2025-01-01" "2025-01-02" c6Map).length : ℚ)) : ℚ) ∧
    getWeeklyAverages "2025-01-02" "2025-01-01" c6Map = ⟨0, 0, 0, 0⟩ :=
  ⟨(c6_averages_amended "2025-01-01" "2025-01-02" c6Map).1,
   ((c6_averages_amended "2025-01-01" "2025-01-02" c6Map).2.2 (by decide)).1,
   (c6_averages_amended "2025-01-02" "2025-01-01" c6Map).2.1 (by decide)⟩

/-! ## C7: saveUserProfile replace semantics -/

/-- A profile object carrying only an `id` property (value 5); every
checked field is absent, so it validates cleanly. -/
def c7Profile : ProfileObj :=
  ⟨some (.num 5), none, none, none, none, none, none, none, none, none⟩

/-- C7 (counterexample): `saveUserProfile` does not refresh `id` to 1
when the given object carries its own `id` — the spread after `id: 1`
lets the object win, so an input with `id: 5` is persisted with id 5. -/
theorem c7_counterexample :
    saveUserProfile "t" c7Profile none =
      .ok (some ⟨some (.num 5), none, none, none, none, none, none, none,
        none, some (.str "t")⟩) ∧
    some (JSVal.num 5) ≠ some (JSVal.num 1) := by
  refine ⟨rfl, by decide⟩

/-- C7 (amended): for every input passing validation, `saveUserProfile`
persists the given object as the new profile, with `updated_at`
refreshed, with `id` defaulted to 1 only when the object has no `id`
property of its own (a provided `id` is kept), every other field taken
from the given object, and with no dependence on the previously stored
profile (full replace, no merge). -/
theorem c7_save_profile_amended (nowISO : String) (profile : ProfileObj)
    (stored : Option ProfileObj) (h : validateUserProfile profile = []) :
    saveUserProfile nowISO profile stored =
      .ok (some { profile with
        id := some (profile.id.getD (.num 1)),
        updated_at := some (.str nowISO) }) ∧
    ∀ stored', saveUserProfile nowISO profile stored' =
      saveUserProfile nowISO profile stored := by
  exact ⟨by simp [saveUserProfile, h], fun stored' => rfl⟩

/-- C7 (witness): applied to the id-only profile against two different
stored states. -/
theorem c7_save_profile_witness :
    saveUserProfile "t" c7Profile none =
      .ok (some ⟨some (.num 5), none, none, none, none, none, none, none,
        none, some (.str "t")⟩) ∧
    saveUserProfile "t" c7Profile (some c7Profile) =
      saveUserProfile "t" c7Profile none := by
  have h := c7_save_profile_amended "t" c7Profile none rfl
  exact ⟨h.1.trans rfl, h.2 (some c7Profile)⟩

/-! ## C8: profile validation of provided fields -/

/-- A profile object whose provided `weight_kg` is 0: out of the 20-500
range, yet falsy, so the truthiness guard skips the range check. -/
def c8Profile : ProfileObj :=
  ⟨none, none, none, some (.num 0), none, none, none, none, none, none⟩

/-- C8 (counterexample): a provided `weight_kg` of 0 is outside 20-500
but is NOT rejected — validation returns no errors and `saveUserProfile`
persists it, because the `profile.weight_kg && ...` guard skips falsy
values. -/
theorem c8_counterexample :
    validateUserProfile c8Profile = [] ∧
    saveUserProfile "t" c8Profile none =
      .ok (some ⟨some (.num 1), none, none, some (.num 0), none, none, none,
        none, none, some (.str "t")⟩) ∧
    (0 : ℚ) < 20 := by
  refine ⟨rfl, rfl, by norm_num⟩

/-- C8 (amended): every provided TRUTHY field is range/type-checked —
a provided truthy `weight_kg` outside 20-500 (and analogously for
height and the three goals) makes `saveUserProfile` fail with the
validation error — while absent fields are not required (the all-absent
profile validates cleanly); a provided falsy value such as 0 escapes the
check. -/
theorem c8_validate_profile_amended (p : ProfileObj) (nowISO : String)
    (stored : Option ProfileObj) :
    (truthyOf p.weight_kg = true →
      (¬ isNumOf p.weight_kg = true ∨ numOf p.weight_kg < 20 ∨
        numOf p.weight_kg > 500) →
      "Weight must be between 20 and 500 kg" ∈ validateUserProfile p ∧
      saveUserProfile nowISO p stored =
        .error (.invalidProfile (validateUserProfile p))) ∧
    (truthyOf p.height_cm = true →
      (¬ isNumOf p.height_cm = true ∨ numOf p.height_cm < 50 ∨
        numOf p.height_cm > 300) →
      "Height must be between 50 and 300 cm" ∈ validateUserProfile p ∧
      saveUserProfile nowISO p stored =
        .error (.invalidProfile (validateUserProfile p))) ∧
    (truthyOf p.daily_water_goal_ml = true →
      (¬ isNumOf p.daily_water_goal_ml = true ∨ numOf p.daily_water_goal_ml < 500 ∨
        numOf p.daily_water_goal_ml > 5000) →
      "Water goal must be between 500 and 5,000 ml" ∈ validateUserProfile p ∧
      saveUserProfile nowISO p stored =
        .error (.invalidProfile (validateUserProfile p))) ∧
    (truthyOf p.daily_calorie_goal = true →
      (¬ isNumOf p.daily_calorie_goal = true ∨ numOf p.daily_calorie_goal < 1200 ∨
        numOf p.daily_calorie_goal > 4000) →
      "Calorie goal must be between 1,200 and 4,000 calories" ∈ validateUserProfile p ∧
      saveUserProfile nowISO p stored =
        .error (.invalidProfile (validateUserProfile p))) ∧
    (truthyOf p.daily_step_goal = true →
      (¬ isNumOf p.daily_step_goal = true ∨ numOf p.daily_step_goal < 1000 ∨
        numOf p.daily_step_goal > 50000) →
      "Step goal must be between 1,000 and 50,000 steps" ∈ validateUserProfile p ∧
      saveUserProfile nowISO p stored =
        .error (.invalidProfile (validateUserProfile p))) ∧
    validateUserProfile
      ⟨none, none, none, none, none, none, none, none, none, none⟩ = [] := by
  refine ⟨?_, ?_, ?_, ?_, ?_, rfl⟩
  · intro h1 h2
    have hblock : weightErrs p = ["Weight must be between 20 and 500 kg"] := by
      rw [weightErrs, if_pos ⟨h1, h2⟩]
    have hmem : "Weight must be between 20 and 500 kg" ∈ validateUserProfile p := by
      unfold validateUserProfile
      simp [hblock]
    exact ⟨hmem, by simp [saveUserProfile, List.ne_nil_of_mem hmem]⟩
  · intro h1 h2
    have hblock : heightErrs p = ["Height must be between 50 and 300 cm"] := by
      rw [heightErrs, if_pos ⟨h1, h2⟩]
    have hmem : "Height must be between 50 and 300 cm" ∈ validateUserProfile p := by
      unfold validateUserProfile
      simp [hblock]
    exact ⟨hmem, by simp [saveUserProfile, List.ne_nil_of_mem hmem]⟩
  · intro h1 h2
    have hblock : waterGoalErrs p = ["Water goal must be between 500 and 5,000 ml"] := by
      rw [waterGoalErrs, if_pos ⟨h1, h2⟩]
    have hmem : "Water goal must be between 500 and 5,000 ml" ∈ validateUserProfile p := by
      unfold validateUserProfile
      simp [hblock]
    exact ⟨hmem, by simp [saveUserProfile, List.ne_nil_of_mem hmem]⟩
  · intro h1 h2
    have hblock : calorieGoalErrs p =
        ["Calorie goal must be between 1,200 and 4,000 calories"] := by
      rw [calorieGoalErrs, if_pos ⟨h1, h2⟩]
    have hmem : "Calorie goal must be between 1,200 and 4,000 calories" ∈
        validateUserProfile p := by
      unfold validateUserProfile
      simp [hblock]
    exact ⟨hmem, by simp [saveUserProfile, List.ne_nil_of_mem hmem]⟩
  · intro h1 h2
    have hblock : stepGoalErrs p = ["Step goal must be between 1,000 and 50,000 steps"] := by
      rw [stepGoalErrs, if_pos ⟨h1, h2⟩]
    have hmem : "Step goal must be between 1,000 and 50,000 steps" ∈
        validateUserProfile p := by
      unfold validateUserProfile
      simp [hblock]
    exact ⟨hmem, by simp [saveUserProfile, List.ne_nil_of_mem hmem]⟩

/-- A profile object with a truthy out-of-range weight (600 kg). -/
def c8WitnessProfile : ProfileObj :=
  ⟨none, none, none, some (.num 600), none, none, none, none, none, none⟩

/-- C8 (witness): a provided weight of 600 is rejected with the weight
message. -/
theorem c8_validate_profile_witness :
    "Weight must be between 20 and 500 kg" ∈ validateUserProfile c8WitnessProfile ∧
    saveUserProfile "t" c8WitnessProfile none =
      .error (.invalidProfile (validateUserProfile c8WitnessProfile)) :=
  (c8_validate_profile_amended c8WitnessProfile "t" none).1 rfl
    (Or.inr (Or.inr (by norm_num [c8WitnessProfile, numOf, JSVal.toNum])))

/-! ## C9: recordDoseTaken after deleteMedicine -/

/-- C9: deleting a medicine and then recording a dose for the deleted id
succeeds; it appends exactly one dose-history record referencing the
removed id and leaves the (already id-free) medicines map unchanged, and
the deletion itself never touches the history. -/
theorem c9_orphan_dose (s : MedState) (medicineId : Int) (doseTime : ℚ)
    (now : Int) (nowISO : String) :
    recordDoseTaken now nowISO medicineId doseTime (deleteMedicine medicineId s) =
      { medicines := (deleteMedicine medicineId s).medicines,
        history := (deleteMedicine medicineId s).history ++
          [{ id := now, medicine_id := medicineId, dose_time := doseTime,
             taken_at := nowISO }] } ∧
    (deleteMedicine medicineId s).history = s.history := by
  have hany : (deleteMedicine medicineId s).medicines.any
      (fun p => p.1 == medicineId) = false := by
    simp only [deleteMedicine]
    cases h : (s.medicines.filter (fun p => p.1 != medicineId)).any
        (fun p => p.1 == medicineId) with
    | false => rfl
    | true =>
      exfalso
      rcases List.any_eq_true.mp h with ⟨x, hx, hbeq⟩
      have hne := List.of_mem_filter hx
      rw [beq_iff_eq] at hbeq
      rw [bne_iff_ne] at hne
      exact hne hbeq
  exact ⟨by simp [recordDoseTaken, hany], rfl⟩

/-- The one-medicine state used to witness C9. -/
def c9State : MedState :=
  { medicines := [(5, ⟨"Aspirin", "100mg", "daily", [8, 20], none, 0, "t0"⟩)]
    history := [] }

/-- C9 (witness): at a concrete one-medicine state. -/
theorem c9_orphan_dose_witness :
    recordDoseTaken 9 "t1" 5 8 (deleteMedicine 5 c9State) =
      { medicines := (deleteMedicine 5 c9State).medicines,
        history := (deleteMedicine 5 c9State).history ++
          [{ id := 9, medicine_id := 5, dose_time := 8, taken_at := "t1" }] } ∧
    (deleteMedicine 5 c9State).history = c9State.history :=
  c9_orphan_dose c9State 5 8 9 "t1"

/-! ## C10: the date of every stored entry equals its key -/

/-- C10: in every daily-entries state reachable from the empty map by
`saveDailyEntry` writes, each stored value carries a `date` field equal
to the map key under which it sits. -/
theorem c10_date_key_invariant (m : EntriesMap) (h : ReachableEntries m) :
    ∀ p ∈ m, p.2.date = p.1 := by
  induction h with
  | empty =>
    intro p hp
    simp at hp
  | save now nowISO date w c s m0 m' hm hsave ih =>
    intro p hp
    simp only [saveDailyEntry] at hsave
    by_cases hval : validateDailyEntry w c s ≠ []
    · rw [if_pos hval] at hsave
      exact absurd hsave (by simp)
    · rw [if_neg hval] at hsave
      by_cases hdate : date = ""
      · rw [if_pos hdate] at hsave
        exact absurd hsave (by simp)
      · rw [if_neg hdate] at hsave
        injection hsave with hkey
        subst hkey
        rcases mem_setKey m0 date _ p hp with hmem | hpair
        · exact ih p hmem
        · rw [hpair]

/-- The one-entry state used to witness C10, reached by a single save. -/
def c10State : EntriesMap := [("2025-01-01", ⟨1, "2025-01-01", 1, 2, 3, "t"⟩)]

/-- C10 (witness): the invariant evaluated at the one-entry reachable
state. -/
theorem c10_date_key_witness :
    (⟨1, "2025-01-01", 1, 2, 3, "t"⟩ : DailyEntry).date = "2025-01-01" :=
  c10_date_key_invariant c10State
    (ReachableEntries.save 1 "t" "2025-01-01" (.num 1) (.num 2) (.num 3) []
      c10State ReachableEntries.empty rfl)
    ("2025-01-01", ⟨1, "2025-01-01", 1, 2, 3, "t"⟩) (by simp [c10State])

end HealthTracker
